import Mathlib

/-!
Verification development for the database lifecycle manager of
`maxmind-geoip-api` (src/utils.rs and src/main.rs).

The byte-level container formats (tar, gzip, bzip2, xz, zip) are modelled
symbolically: a `Blob` is a byte payload wrapped in zero or more container
layers, content sniffing (`file_format::FileFormat::from_file`) reads the
outermost constructor, and each decoder inverts the corresponding
constructor.  The filesystem next to the artifact (database.mmdb, etag,
stamp, database.mmdb.temp, database.mmdb.temp2) is an explicit record of
optional file contents, and `download_database` / `save_mmdb` are state
transition functions over it that additionally report an ordered trace
of observable events (network request, temp write, rename, sidecar writes,
process exit).
-/

set_option autoImplicit false

namespace MaxmindGeoipApi

/-- A byte stream, possibly wrapped in container layers.  `raw` is a stream
that `file_format` classifies as none of the known containers. -/
inductive Blob where
  | raw (bytes : List Nat)
  | gzip (inner : Blob)
  | bzip2 (inner : Blob)
  | xz (inner : Blob)
  | tar (entries : List (String × Blob))
  | zip (entries : List (String × Blob))

/-- The subset of `file_format::FileFormat` values `save_mmdb` compares
against, plus `other` for everything else. -/
inductive Format where
  | tapeArchive
  | gzip
  | bzip2
  | xz
  | zip
  | other
deriving DecidableEq, Repr

/-- Content sniffing: `file_format::FileFormat::from_file` (utils.rs:63). -/
def sniff : Blob → Format
  | .raw _ => .other
  | .gzip _ => .gzip
  | .bzip2 _ => .bzip2
  | .xz _ => .xz
  | .tar _ => .tapeArchive
  | .zip _ => .zip

/-- `flate2::read::GzDecoder` (utils.rs:93): inverts a gzip layer, fails on
anything that is not a gzip stream. -/
def gzDecode : Blob → Except String Blob
  | .gzip inner => .ok inner
  | _ => .error "gzip decode error"

/-- `bzip2::read::BzDecoder` (utils.rs:101). -/
def bzDecode : Blob → Except String Blob
  | .bzip2 inner => .ok inner
  | _ => .error "bzip2 decode error"

/-- `xz2::read::XzDecoder` (utils.rs:132). -/
def xzDecode : Blob → Except String Blob
  | .xz inner => .ok inner
  | _ => .error "xz decode error"

/-- Entry list of a tar archive (utils.rs:71, `archive.entries()`). -/
def tarEntries : Blob → List (String × Blob)
  | .tar es => es
  | _ => []

/-- Entry list of a zip archive (utils.rs:111, iteration over indices of the
central directory). -/
def zipEntries : Blob → List (String × Blob)
  | .zip es => es
  | _ => []

/-- `str::starts_with` on entry names (utils.rs:75, 114), computed on the
underlying character lists. -/
def strHasStart (s p : String) : Bool := s.data.take p.data.length == p.data

/-- `str::ends_with` on entry names (utils.rs:78, 117), computed on the
underlying character lists. -/
def strHasSuffix (s p : String) : Bool :=
  s.data.reverse.take p.data.length == p.data.reverse

/-- Entry selection shared by the tar branch (utils.rs:71-87) and the zip
branch (utils.rs:111-127): skip entries under `__MACOSX/`, copy out the
first entry whose name ends in `.mmdb`; if none matches, the branch returns
the error `mmdb file not found in archive`. -/
def findMmdbEntry : List (String × Blob) → Except String Blob
  | [] => .error "mmdb file not found in archive"
  | (name, content) :: rest =>
    if strHasStart name "__MACOSX/" then findMmdbEntry rest
    else if strHasSuffix name ".mmdb" then .ok content
    else findMmdbEntry rest

/-- One iteration of the unwrap loop in `save_mmdb` (utils.rs:62-141),
with the branch conditions exactly as in the source: tar, gzip, then the
`// .bz2` branch whose condition as written tests
`file_format::FileFormat::Gzip` again (utils.rs:97), then zip, then xz.
`none` models the `else break` arm. -/
def unwrapStep (b : Blob) : Option (Except String Blob) :=
  let fmt := sniff b
  if fmt = Format.tapeArchive then
    some (findMmdbEntry (tarEntries b))
  else if fmt = Format.gzip then
    some (gzDecode b)
  else if fmt = Format.gzip then
    -- utils.rs:97: the bzip2 branch repeats the Gzip comparison, so this
    -- arm (BzDecoder) is dead code and Format.bzip2 falls through to break.
    some (bzDecode b)
  else if fmt = Format.zip then
    some (findMmdbEntry (zipEntries b))
  else if fmt = Format.xz then
    some (xzDecode b)
  else
    none

theorem findMmdbEntry_mem {es : List (String × Blob)} {c : Blob}
    (h : findMmdbEntry es = Except.ok c) : ∃ n, (n, c) ∈ es := by
  induction es with
  | nil => simp [findMmdbEntry] at h
  | cons e rest ih =>
    obtain ⟨n, b⟩ := e
    by_cases h1 : strHasStart n "__MACOSX/"
    · simp only [findMmdbEntry, h1, if_true] at h
      obtain ⟨m, hm⟩ := ih h
      exact ⟨m, List.mem_cons_of_mem _ hm⟩
    · by_cases h2 : strHasSuffix n ".mmdb"
      · simp only [findMmdbEntry, h1, h2, if_true, if_false] at h
        cases h
        exact ⟨n, List.mem_cons_self _ _⟩
      · simp only [findMmdbEntry, h1, h2, if_false] at h
        obtain ⟨m, hm⟩ := ih h
        exact ⟨m, List.mem_cons_of_mem _ hm⟩

theorem sizeOf_lt_of_mem {es : List (String × Blob)} {n : String} {c : Blob}
    (h : (n, c) ∈ es) : sizeOf c < sizeOf es := by
  induction es with
  | nil => cases h
  | cons e rest ih =>
    cases h with
    | head =>
      simp only [List.cons.sizeOf_spec, Prod.mk.sizeOf_spec]
      omega
    | tail _ h' =>
      have := ih h'
      simp only [List.cons.sizeOf_spec]
      omega

theorem unwrapStep_ok_size {b c : Blob} (h : unwrapStep b = some (Except.ok c)) :
    sizeOf c < sizeOf b := by
  cases b with
  | raw bs => simp [unwrapStep, sniff] at h
  | gzip inner =>
    simp only [unwrapStep, sniff, gzDecode, reduceIte] at h
    cases h
    simp only [Blob.gzip.sizeOf_spec]
    omega
  | bzip2 inner => simp [unwrapStep, sniff] at h
  | xz inner =>
    simp only [unwrapStep, sniff, xzDecode, reduceIte] at h
    cases h
    simp only [Blob.xz.sizeOf_spec]
    omega
  | tar es =>
    simp only [unwrapStep, sniff, tarEntries, reduceIte] at h
    cases hf : findMmdbEntry es with
    | ok c' =>
      rw [hf] at h
      cases h
      obtain ⟨n, hm⟩ := findMmdbEntry_mem hf
      have := sizeOf_lt_of_mem hm
      simp only [Blob.tar.sizeOf_spec]
      omega
    | error e => rw [hf] at h; cases h
  | zip es =>
    simp only [unwrapStep, sniff, zipEntries, reduceIte] at h
    cases hf : findMmdbEntry es with
    | ok c' =>
      rw [hf] at h
      cases h
      obtain ⟨n, hm⟩ := findMmdbEntry_mem hf
      have := sizeOf_lt_of_mem hm
      simp only [Blob.zip.sizeOf_spec]
      omega
    | error e => rw [hf] at h; cases h

/-- Contents of the files in the data directory that the lifecycle manager
touches: `database.mmdb` (`db`), the `etag` sidecar (`etagFile`), the
`stamp` sidecar represented by the age in seconds of its modification time
(`stampAge`, `none` when the file does not exist), and the two scratch
files `database.mmdb.temp` / `database.mmdb.temp2`.  `none` means the file
does not exist. -/
structure DState where
  db : Option Blob
  etagFile : Option String
  stampAge : Option Nat
  temp : Option Blob
  temp2 : Option Blob

/-- Write (`some v`) or remove (`none`) one of the two scratch files;
`isTemp = true` addresses `database.mmdb.temp`, `false` addresses
`database.mmdb.temp2`. -/
def setSlot (s : DState) (isTemp : Bool) (v : Option Blob) : DState :=
  if isTemp then { s with temp := v } else { s with temp2 := v }

/-- Read one of the two scratch files. -/
def getSlot (s : DState) (isTemp : Bool) : Option Blob :=
  if isTemp then s.temp else s.temp2

set_option linter.unusedVariables false in
/-- The `loop` of `save_mmdb` (utils.rs:62-141).  `cur` is the content of
the current `read_path`, `readIsTemp` records which physical scratch file
`read_path` currently is (`save_mmdb` is called with
`source_path = database.mmdb.temp`, `temp_path = database.mmdb.temp2`,
utils.rs:266, and `std::mem::swap` flips the two paths after each peeled
layer, utils.rs:140).  A successful iteration creates `write_path` with the
unwrapped content and removes `read_path` (utils.rs:81/96/104/120/135); the
`mmdb file not found in archive` error returns with `write_path` created
(empty, utils.rs:68/108) and `read_path` left in place. -/
def saveLoop (cur : Blob) (readIsTemp : Bool) (s : DState) :
    Except String (Blob × Bool) × DState :=
  match h : unwrapStep cur with
  | none => (.ok (cur, readIsTemp), s)
  | some (.error e) => (.error e, setSlot s (!readIsTemp) (some (Blob.raw [])))
  | some (.ok inner) =>
    saveLoop inner (!readIsTemp)
      (setSlot (setSlot s (!readIsTemp) (some inner)) readIsTemp none)
termination_by sizeOf cur
decreasing_by exact unwrapStep_ok_size h

/-- The content-level result of the extraction loop, viewed from the
initial read file: what `save_mmdb` hands to validation after peeling
container layers. -/
def extract (b : Blob) : Except String Blob :=
  (saveLoop b true (DState.mk none none none (some b) none)).1.map Prod.fst

/-- Observable events of one refresh attempt, in program order. -/
inductive Ev where
  | exit (code : Nat)
  | request (ifNoneMatch : Option String)
  | writeTemp
  | renameToDb
  | writeEtag (value : String)
  | writeStamp
deriving DecidableEq, Repr

/-- `save_mmdb` (utils.rs:51-156) as a transition on the data directory:
run the unwrap loop starting from `database.mmdb.temp`, then validate the
final file by opening it through the maxminddb library (`mmdbOk`,
utils.rs:144); on success atomically rename it onto `database.mmdb`
(utils.rs:154), on failure remove it and return the error (utils.rs:149-150). -/
def saveMmdb (mmdbOk : Blob → Bool) (s : DState) :
    Except String Unit × DState × List Ev :=
  match s.temp with
  | none => (.error "source file missing", s, [])
  | some src =>
    match saveLoop src true s with
    | (.error e, s1) => (.error e, s1, [])
    | (.ok (final, readIsTemp), s1) =>
      if mmdbOk final then
        (.ok (), setSlot { s1 with db := some final } readIsTemp none, [Ev.renameToDb])
      else
        (.error "Error opening newly downloaded database", setSlot s1 readIsTemp none, [])

/-- What the remote source does when `reqwest` sends the GET carrying the
given `If-None-Match` header (utils.rs:221): the send itself fails
(DNS/TLS/timeout), or a response with status 304, status 200 (with body
and optional `ETag` header), or any other status arrives. -/
inductive NetResult where
  | netError
  | notModified
  | other (code : Nat)
  | ok (body : Blob) (etagHeader : Option String)

/-- How one call to `download_database` ends: `Ok(())`, `Err(...)`, or
`process::exit(1)` reached inside the function itself (utils.rs:185). -/
inductive DlOutcome where
  | ok
  | err (msg : String)
  | exited
deriving DecidableEq, Repr

/-- Result of one `download_database` call: outcome, final data-directory
state, and the ordered trace of observable events. -/
structure DlResult where
  outcome : DlOutcome
  state : DState
  events : List Ev

/-- The 24-hour skip guard (utils.rs:193-212): taken only when `force` is
false, `database.mmdb` exists, the `stamp` file exists and its modification
time is younger than 24 hours (86400 seconds). -/
def guardFires (force : Bool) (s : DState) : Bool :=
  !force && s.db.isSome &&
    (match s.stampAge with
     | some a => decide (a < 86400)
     | none => false)

/-- The `If-None-Match` header value attached to the request
(utils.rs:215-220): the stored etag whenever both `database.mmdb` and the
`etag` file exist — independent of `force`. -/
def inmOf (s : DState) : Option String :=
  if s.db.isSome && s.etagFile.isSome then s.etagFile else none

/-- `download_database` (utils.rs:174-295) as a transition on the data
directory.  `urlConfigured` is whether `MAXMIND_DB_URL` is set;
`net` is the remote source's behaviour as a function of the
`If-None-Match` header sent; `mmdbOk` is the opaque maxminddb open test. -/
def downloadDatabase (mmdbOk : Blob → Bool) (net : Option String → NetResult)
    (urlConfigured : Bool) (force : Bool) (s : DState) : DlResult :=
  if !urlConfigured then
    -- utils.rs:176-187
    if s.db.isSome then ⟨.ok, s, []⟩
    else ⟨.exited, s, [Ev.exit 1]⟩
  else if guardFires force s then
    -- utils.rs:193-212
    ⟨.ok, s, []⟩
  else
    let inm := inmOf s
    match net inm with
    | .netError =>
      -- utils.rs:221: `request.send().await?` propagates the error
      ⟨.err "network error", s, [Ev.request inm]⟩
    | .notModified =>
      -- utils.rs:224-227
      ⟨.ok, { s with stampAge := some 0 }, [Ev.request inm, Ev.writeStamp]⟩
    | .other _ =>
      -- utils.rs:228-253
      if s.db.isSome then ⟨.ok, s, [Ev.request inm]⟩
      else ⟨.err "unexpected response code", s, [Ev.request inm]⟩
    | .ok body etagHeader =>
      -- utils.rs:256-264: capture the ETag header, write the body to
      -- database.mmdb.temp, then run save_mmdb
      let s1 := { s with temp := some body }
      match saveMmdb mmdbOk s1 with
      | (.error e, s2, evs) =>
        -- utils.rs:266-273
        if s2.db.isSome then ⟨.ok, s2, Ev.request inm :: Ev.writeTemp :: evs⟩
        else ⟨.err e, s2, Ev.request inm :: Ev.writeTemp :: evs⟩
      | (.ok _, s2, evs) =>
        -- utils.rs:275-283: write the etag sidecar only when the response
        -- carried an ETag header, then refresh the stamp
        match etagHeader with
        | some t =>
          ⟨.ok, { s2 with etagFile := some t, stampAge := some 0 },
            Ev.request inm :: Ev.writeTemp :: evs ++ [Ev.writeEtag t, Ev.writeStamp]⟩
        | none =>
          ⟨.ok, { s2 with stampAge := some 0 },
            Ev.request inm :: Ev.writeTemp :: evs ++ [Ev.writeStamp]⟩

/-- Force flag of the startup trigger: `utils::download_database(false)`
(main.rs:103). -/
def startupForce : Bool := false

/-- Force flag of the SIGHUP (reload signal) trigger:
`utils::download_database(true)` (main.rs:96). -/
def sighupForce : Bool := true

/-- Force flag of the 24-hour timer trigger:
`utils::download_database(true)` (main.rs:118). -/
def timerForce : Bool := true

/-- Whether the startup call site (main.rs:103-106) terminates the process:
it calls `process::exit(1)` on `Err`, and the `exited` outcome means the
process already terminated inside `download_database`. -/
def startupFatal (r : DlResult) : Bool :=
  match r.outcome with
  | .ok => false
  | .err _ => true
  | .exited => true

/-- Whether a SIGHUP- or timer-triggered call (main.rs:96-99, 118-121)
terminates the process: those call sites only log an `Err`, so the process
ends only when `download_database` itself exited. -/
def backgroundFatal (r : DlResult) : Bool :=
  match r.outcome with
  | .exited => true
  | _ => false

/-- Scans an event trace and reports whether a `writeEtag` occurs before
any `renameToDb`: the situation in which the validator token on disk would
describe an artifact that was never installed. -/
def etagWriteWithoutInstall : List Ev → Bool
  | [] => false
  | Ev.renameToDb :: _ => false
  | Ev.writeEtag _ :: _ => true
  | _ :: rest => etagWriteWithoutInstall rest

@[simp] theorem setSlot_db (s : DState) (b : Bool) (v : Option Blob) :
    (setSlot s b v).db = s.db := by
  unfold setSlot; split <;> rfl

@[simp] theorem setSlot_etagFile (s : DState) (b : Bool) (v : Option Blob) :
    (setSlot s b v).etagFile = s.etagFile := by
  unfold setSlot; split <;> rfl

@[simp] theorem setSlot_stampAge (s : DState) (b : Bool) (v : Option Blob) :
    (setSlot s b v).stampAge = s.stampAge := by
  unfold setSlot; split <;> rfl

@[simp] theorem getSlot_setSlot_same (s : DState) (b : Bool) (v : Option Blob) :
    getSlot (setSlot s b v) b = v := by
  cases b <;> rfl

theorem getSlot_setSlot_other (s : DState) (b : Bool) (v : Option Blob) :
    getSlot (setSlot s b v) (!b) = getSlot s (!b) := by
  cases b <;> rfl

/-- The unwrap loop never touches `database.mmdb`. -/
theorem saveLoop_db (cur : Blob) (rt : Bool) (s : DState) :
    (saveLoop cur rt s).2.db = s.db := by
  induction cur, rt, s using saveLoop.induct with
  | case1 cur rt s h => rw [saveLoop]; split <;> simp_all
  | case2 cur rt s e h => rw [saveLoop]; split <;> simp_all
  | case3 cur rt s inner h ih => rw [saveLoop]; split <;> simp_all

/-- The unwrap loop never touches the `etag` sidecar. -/
theorem saveLoop_etagFile (cur : Blob) (rt : Bool) (s : DState) :
    (saveLoop cur rt s).2.etagFile = s.etagFile := by
  induction cur, rt, s using saveLoop.induct with
  | case1 cur rt s h => rw [saveLoop]; split <;> simp_all
  | case2 cur rt s e h => rw [saveLoop]; split <;> simp_all
  | case3 cur rt s inner h ih => rw [saveLoop]; split <;> simp_all

/-- The unwrap loop never touches the `stamp` sidecar. -/
theorem saveLoop_stampAge (cur : Blob) (rt : Bool) (s : DState) :
    (saveLoop cur rt s).2.stampAge = s.stampAge := by
  induction cur, rt, s using saveLoop.induct with
  | case1 cur rt s h => rw [saveLoop]; split <;> simp_all
  | case2 cur rt s e h => rw [saveLoop]; split <;> simp_all
  | case3 cur rt s inner h ih => rw [saveLoop]; split <;> simp_all

/-- When the unwrap loop finishes, either it peeled nothing (the state is
untouched and the read file is still the source), or the final read file
holds the result and the other scratch file has been removed. -/
theorem saveLoop_ok_slots (cur : Blob) (rt : Bool) (s : DState) (final : Blob)
    (rt2 : Bool) (s2 : DState)
    (h : saveLoop cur rt s = (Except.ok (final, rt2), s2)) :
    (s2 = s ∧ rt2 = rt ∧ final = cur) ∨
    (getSlot s2 rt2 = some final ∧ getSlot s2 (!rt2) = none) := by
  induction cur, rt, s using saveLoop.induct with
  | case1 cur rt s hu =>
    rw [saveLoop] at h
    split at h <;> simp_all
  | case2 cur rt s e hu =>
    rw [saveLoop] at h
    split at h <;> simp_all
  | case3 cur rt s inner hu ih =>
    rw [saveLoop] at h
    split at h
    · simp_all
    · simp_all
    · rename_i inner2 heq
      rw [hu] at heq
      injection heq with heq2
      injection heq2 with heq3
      subst heq3
      rcases ih h with ⟨rfl, rfl, rfl⟩ | ⟨h1, h2⟩
      · refine Or.inr ⟨?_, ?_⟩
        · rw [getSlot_setSlot_other, getSlot_setSlot_same]
        · rw [Bool.not_not, getSlot_setSlot_same]
      · exact Or.inr ⟨h1, h2⟩

/-! ### Scheduler concurrency model

`main` (main.rs:85-124) spawns one task per background trigger source: the
SIGHUP listener (main.rs:93-101, `while let Some(_) = sighup.recv().await
{ download_database(true) ... }`) and the 24-hour timer (main.rs:112-124,
`loop { interval.tick().await; download_database(true) ... }`).  Within one
task, a new cycle begins only after the previous loop iteration finished,
but the two tasks share no lock, flag or queue, so their refresh cycles
interleave freely on the multi-threaded runtime.  A state records how many
cycles each task currently has in flight; the step relation has one
start/end pair per task, with no constructor consulting the other task's
component. -/

/-- In-flight refresh cycles of the SIGHUP task and of the timer task. -/
structure Sched where
  sighupCycles : Nat
  timerCycles : Nat
deriving DecidableEq, Repr

/-- Total number of refresh cycles currently in flight. -/
def inFlight (st : Sched) : Nat := st.sighupCycles + st.timerCycles

/-- One scheduling step.  A task starts a cycle only when its own loop is
idle (main.rs:95 / main.rs:117 each await the body before looping), and
nothing constrains the other task. -/
inductive SchedStep : Sched → Sched → Prop where
  | sighupStart (t : Nat) : SchedStep ⟨0, t⟩ ⟨1, t⟩
  | sighupEnd (t : Nat) : SchedStep ⟨1, t⟩ ⟨0, t⟩
  | timerStart (n : Nat) : SchedStep ⟨n, 0⟩ ⟨n, 1⟩
  | timerEnd (n : Nat) : SchedStep ⟨n, 1⟩ ⟨n, 0⟩

/-- States reachable from process start (no cycle in flight). -/
inductive SchedReach : Sched → Prop where
  | start : SchedReach ⟨0, 0⟩
  | step {a b : Sched} : SchedReach a → SchedStep a b → SchedReach b

/-! ### Concrete fixtures used by witnesses and counterexamples -/

/-- Data directory with only `database.mmdb` present. -/
def dbOnlyState : DState := DState.mk (some (Blob.raw [9])) none none none none

/-- Data directory with `database.mmdb` and a stored `etag` sidecar. -/
def etagState : DState := DState.mk (some (Blob.raw [9])) (some "etag-1") none none none

/-- Data directory with `database.mmdb` and a `stamp` written just now. -/
def freshStampState : DState := DState.mk (some (Blob.raw [9])) none (some 0) none none

/-- Empty data directory. -/
def emptyState : DState := DState.mk none none none none none

/-- Opaque-library stub that accepts every candidate. -/
def alwaysOk : Blob → Bool := fun _ => true

/-- Opaque-library stub that rejects every candidate. -/
def alwaysBad : Blob → Bool := fun _ => false

/-- Remote source whose `send` always fails (DNS/TLS/timeout). -/
def alwaysDown : Option String → NetResult := fun _ => NetResult.netError

/-! ### Helper lemmas -/

/-- A successful `save_mmdb` performs exactly the atomic rename. -/
theorem saveMmdb_ok_events (mmdbOk : Blob → Bool) (s : DState) (u : Unit)
    (s2 : DState) (evs : List Ev)
    (h : saveMmdb mmdbOk s = (Except.ok u, s2, evs)) : evs = [Ev.renameToDb] := by
  cases hsrc : s.temp with
  | none =>
    simp only [saveMmdb, hsrc, Prod.mk.injEq] at h
    exact absurd h.1 (by simp)
  | some src =>
    cases hloop : saveLoop src true s with
    | mk r s1 =>
      cases r with
      | error e =>
        simp only [saveMmdb, hsrc, hloop, Prod.mk.injEq] at h
        exact absurd h.1 (by simp)
      | ok p =>
        cases p with
        | mk final rt2 =>
          by_cases hv : mmdbOk final = true
          · simp only [saveMmdb, hsrc, hloop, hv, if_true, Prod.mk.injEq] at h
            exact h.2.2.symm
          · simp only [Bool.not_eq_true] at hv
            simp only [saveMmdb, hsrc, hloop, hv, Bool.false_eq_true, if_false,
              Prod.mk.injEq] at h
            exact absurd h.1 (by simp)

/-- A failed `save_mmdb` performs no observable event. -/
theorem saveMmdb_error_events (mmdbOk : Blob → Bool) (s : DState) (e : String)
    (s2 : DState) (evs : List Ev)
    (h : saveMmdb mmdbOk s = (Except.error e, s2, evs)) : evs = [] := by
  cases hsrc : s.temp with
  | none =>
    simp only [saveMmdb, hsrc, Prod.mk.injEq] at h
    exact h.2.2.symm
  | some src =>
    cases hloop : saveLoop src true s with
    | mk r s1 =>
      cases r with
      | error e2 =>
        simp only [saveMmdb, hsrc, hloop, Prod.mk.injEq] at h
        exact h.2.2.symm
      | ok p =>
        cases p with
        | mk final rt2 =>
          by_cases hv : mmdbOk final = true
          · simp only [saveMmdb, hsrc, hloop, hv, if_true, Prod.mk.injEq] at h
            exact absurd h.1 (by simp)
          · simp only [Bool.not_eq_true] at hv
            simp only [saveMmdb, hsrc, hloop, hv, Bool.false_eq_true, if_false,
              Prod.mk.injEq] at h
            exact h.2.2.symm

/-- A raw stream is returned unchanged by the extraction loop. -/
theorem extract_raw (bs : List Nat) :
    extract (Blob.raw bs) = Except.ok (Blob.raw bs) := by
  simp [extract, saveLoop, unwrapStep, sniff, Except.map]

/-- A gzip-wrapped raw payload is unwrapped to the payload. -/
theorem extract_gzip (bs : List Nat) :
    extract (Blob.gzip (Blob.raw bs)) = Except.ok (Blob.raw bs) := by
  simp [extract, saveLoop, unwrapStep, sniff, gzDecode, Except.map]

/-- An xz-wrapped raw payload is unwrapped to the payload. -/
theorem extract_xz (bs : List Nat) :
    extract (Blob.xz (Blob.raw bs)) = Except.ok (Blob.raw bs) := by
  simp [extract, saveLoop, unwrapStep, sniff, xzDecode, Except.map]

/-- A tar archive holding one `.mmdb`-named raw payload is unwrapped to the
payload. -/
theorem extract_tar (name : String) (bs : List Nat)
    (h1 : strHasStart name "__MACOSX/" = false)
    (h2 : strHasSuffix name ".mmdb" = true) :
    extract (Blob.tar [(name, Blob.raw bs)]) = Except.ok (Blob.raw bs) := by
  have h0 : unwrapStep (Blob.tar [(name, Blob.raw bs)]) =
      some (Except.ok (Blob.raw bs)) := by
    simp [unwrapStep, sniff, tarEntries, findMmdbEntry, h1, h2]
  have h3 : unwrapStep (Blob.raw bs) = none := by
    simp [unwrapStep, sniff]
  unfold extract
  rw [saveLoop]
  split
  · rename_i heq; rw [h0] at heq; cases heq
  · rename_i e heq; rw [h0] at heq; cases heq
  · rename_i inner heq
    rw [h0] at heq
    injection heq with heq2
    injection heq2 with heq3
    subst heq3
    rw [saveLoop]
    split
    · rfl
    · rename_i e heq4; rw [h3] at heq4; cases heq4
    · rename_i inner2 heq4; rw [h3] at heq4; cases heq4

/-- A zip archive holding one `.mmdb`-named raw payload is unwrapped to the
payload. -/
theorem extract_zip (name : String) (bs : List Nat)
    (h1 : strHasStart name "__MACOSX/" = false)
    (h2 : strHasSuffix name ".mmdb" = true) :
    extract (Blob.zip [(name, Blob.raw bs)]) = Except.ok (Blob.raw bs) := by
  have h0 : unwrapStep (Blob.zip [(name, Blob.raw bs)]) =
      some (Except.ok (Blob.raw bs)) := by
    simp [unwrapStep, sniff, zipEntries, findMmdbEntry, h1, h2]
  have h3 : unwrapStep (Blob.raw bs) = none := by
    simp [unwrapStep, sniff]
  unfold extract
  rw [saveLoop]
  split
  · rename_i heq; rw [h0] at heq; cases heq
  · rename_i e heq; rw [h0] at heq; cases heq
  · rename_i inner heq
    rw [h0] at heq
    injection heq with heq2
    injection heq2 with heq3
    subst heq3
    rw [saveLoop]
    split
    · rfl
    · rename_i e heq4; rw [h3] at heq4; cases heq4
    · rename_i inner2 heq4; rw [h3] at heq4; cases heq4

/-- Branch equation: the `send` itself fails (utils.rs:221). -/
theorem dl_netError (mmdbOk : Blob → Bool) (net : Option String → NetResult)
    (force : Bool) (s : DState)
    (hg : guardFires force s = false)
    (hnet : net (inmOf s) = NetResult.netError) :
    downloadDatabase mmdbOk net true force s =
      ⟨DlOutcome.err "network error", s, [Ev.request (inmOf s)]⟩ := by
  simp only [downloadDatabase, Bool.not_true, Bool.false_eq_true, if_false, hg, hnet]

/-- Branch equation: 304 Not Modified (utils.rs:224-227). -/
theorem dl_notModified (mmdbOk : Blob → Bool) (net : Option String → NetResult)
    (force : Bool) (s : DState)
    (hg : guardFires force s = false)
    (hnet : net (inmOf s) = NetResult.notModified) :
    downloadDatabase mmdbOk net true force s =
      ⟨DlOutcome.ok, { s with stampAge := some 0 },
        [Ev.request (inmOf s), Ev.writeStamp]⟩ := by
  simp only [downloadDatabase, Bool.not_true, Bool.false_eq_true, if_false, hg, hnet]

/-- Branch equation: unexpected status with an artifact on disk
(utils.rs:229-246). -/
theorem dl_other_db (mmdbOk : Blob → Bool) (net : Option String → NetResult)
    (force : Bool) (s : DState) (c : Nat)
    (hg : guardFires force s = false)
    (hnet : net (inmOf s) = NetResult.other c)
    (hdb : s.db.isSome = true) :
    downloadDatabase mmdbOk net true force s =
      ⟨DlOutcome.ok, s, [Ev.request (inmOf s)]⟩ := by
  simp only [downloadDatabase, Bool.not_true, Bool.false_eq_true, if_false, hg, hnet,
    hdb, if_true]

/-- Branch equation: unexpected status with no artifact on disk
(utils.rs:251-253). -/
theorem dl_other_nodb (mmdbOk : Blob → Bool) (net : Option String → NetResult)
    (force : Bool) (s : DState) (c : Nat)
    (hg : guardFires force s = false)
    (hnet : net (inmOf s) = NetResult.other c)
    (hdb : s.db.isSome = false) :
    downloadDatabase mmdbOk net true force s =
      ⟨DlOutcome.err "unexpected response code", s, [Ev.request (inmOf s)]⟩ := by
  simp only [downloadDatabase, Bool.not_true, Bool.false_eq_true, if_false, hg, hnet,
    hdb]

/-- Branch equation: 200, `save_mmdb` fails, artifact still on disk
(utils.rs:267-269). -/
theorem dl_ok_saveErr_db (mmdbOk : Blob → Bool) (net : Option String → NetResult)
    (force : Bool) (s : DState) (body : Blob) (etagHeader : Option String)
    (e : String) (s2 : DState) (evs : List Ev)
    (hg : guardFires force s = false)
    (hnet : net (inmOf s) = NetResult.ok body etagHeader)
    (hsm : saveMmdb mmdbOk { s with temp := some body } = (Except.error e, s2, evs))
    (hdb : s2.db.isSome = true) :
    downloadDatabase mmdbOk net true force s =
      ⟨DlOutcome.ok, s2, Ev.request (inmOf s) :: Ev.writeTemp :: evs⟩ := by
  simp only [downloadDatabase, Bool.not_true, Bool.false_eq_true, if_false, hg, hnet,
    hsm, hdb, if_true]

/-- Branch equation: 200, `save_mmdb` fails, no artifact on disk
(utils.rs:270-272). -/
theorem dl_ok_saveErr_nodb (mmdbOk : Blob → Bool) (net : Option String → NetResult)
    (force : Bool) (s : DState) (body : Blob) (etagHeader : Option String)
    (e : String) (s2 : DState) (evs : List Ev)
    (hg : guardFires force s = false)
    (hnet : net (inmOf s) = NetResult.ok body etagHeader)
    (hsm : saveMmdb mmdbOk { s with temp := some body } = (Except.error e, s2, evs))
    (hdb : s2.db.isSome = false) :
    downloadDatabase mmdbOk net true force s =
      ⟨DlOutcome.err e, s2, Ev.request (inmOf s) :: Ev.writeTemp :: evs⟩ := by
  simp only [downloadDatabase, Bool.not_true, Bool.false_eq_true, if_false, hg, hnet,
    hsm, hdb]

/-- Branch equation: 200 with an `ETag` header, successful install
(utils.rs:275-283). -/
theorem dl_ok_save_etag (mmdbOk : Blob → Bool) (net : Option String → NetResult)
    (force : Bool) (s : DState) (body : Blob) (t : String) (u : Unit)
    (s2 : DState) (evs : List Ev)
    (hg : guardFires force s = false)
    (hnet : net (inmOf s) = NetResult.ok body (some t))
    (hsm : saveMmdb mmdbOk { s with temp := some body } = (Except.ok u, s2, evs)) :
    downloadDatabase mmdbOk net true force s =
      ⟨DlOutcome.ok, { s2 with etagFile := some t, stampAge := some 0 },
        Ev.request (inmOf s) :: Ev.writeTemp :: evs ++ [Ev.writeEtag t, Ev.writeStamp]⟩ := by
  simp only [downloadDatabase, Bool.not_true, Bool.false_eq_true, if_false, hg, hnet,
    hsm]

/-- Branch equation: 200 without an `ETag` header, successful install —
the `etag` sidecar is not touched (utils.rs:275 `if let Some`). -/
theorem dl_ok_save_noetag (mmdbOk : Blob → Bool) (net : Option String → NetResult)
    (force : Bool) (s : DState) (body : Blob) (u : Unit)
    (s2 : DState) (evs : List Ev)
    (hg : guardFires force s = false)
    (hnet : net (inmOf s) = NetResult.ok body none)
    (hsm : saveMmdb mmdbOk { s with temp := some body } = (Except.ok u, s2, evs)) :
    downloadDatabase mmdbOk net true force s =
      ⟨DlOutcome.ok, { s2 with stampAge := some 0 },
        Ev.request (inmOf s) :: Ev.writeTemp :: evs ++ [Ev.writeStamp]⟩ := by
  simp only [downloadDatabase, Bool.not_true, Bool.false_eq_true, if_false, hg, hnet,
    hsm]

/-- When the URL is configured and the 24h guard does not fire, the very
first observable event of `download_database` is the GET request carrying
`inmOf s` as `If-None-Match`, whatever the remote does. -/
theorem downloadDatabase_first_event (mmdbOk : Blob → Bool)
    (net : Option String → NetResult) (force : Bool) (s : DState)
    (hg : guardFires force s = false) :
    (downloadDatabase mmdbOk net true force s).events.head? =
      some (Ev.request (inmOf s)) := by
  cases hnet : net (inmOf s) with
  | netError => rw [dl_netError mmdbOk net force s hg hnet]; rfl
  | notModified => rw [dl_notModified mmdbOk net force s hg hnet]; rfl
  | other c =>
    rcases hd : s.db.isSome with _ | _
    · rw [dl_other_nodb mmdbOk net force s c hg hnet hd]; rfl
    · rw [dl_other_db mmdbOk net force s c hg hnet hd]; rfl
  | ok body etagHeader =>
    cases hsm : saveMmdb mmdbOk { s with temp := some body } with
    | mk r rest =>
      cases rest with
      | mk s2 evs =>
        cases r with
        | error e =>
          rcases hd : s2.db.isSome with _ | _
          · rw [dl_ok_saveErr_nodb mmdbOk net force s body etagHeader e s2 evs hg
              hnet hsm hd]
            rfl
          · rw [dl_ok_saveErr_db mmdbOk net force s body etagHeader e s2 evs hg
              hnet hsm hd]
            rfl
        | ok u =>
          cases etagHeader with
          | some t =>
            rw [dl_ok_save_etag mmdbOk net force s body t u s2 evs hg hnet hsm]
            rfl
          | none =>
            rw [dl_ok_save_noetag mmdbOk net force s body u s2 evs hg hnet hsm]
            rfl

/-- With the URL configured, `download_database` never reaches the
`process::exit(1)` inside itself, so SIGHUP- and timer-triggered attempts
never terminate the process no matter how the attempt ends. -/
theorem downloadDatabase_no_exit (mmdbOk : Blob → Bool)
    (net : Option String → NetResult) (force : Bool) (s : DState) :
    backgroundFatal (downloadDatabase mmdbOk net true force s) = false := by
  rcases hg : guardFires force s with _ | _
  case true =>
    simp only [downloadDatabase, Bool.not_true, Bool.false_eq_true, if_false, hg,
      if_true]
    rfl
  case false =>
  cases hnet : net (inmOf s) with
  | netError => rw [dl_netError mmdbOk net force s hg hnet]; rfl
  | notModified => rw [dl_notModified mmdbOk net force s hg hnet]; rfl
  | other c =>
    rcases hd : s.db.isSome with _ | _
    · rw [dl_other_nodb mmdbOk net force s c hg hnet hd]; rfl
    · rw [dl_other_db mmdbOk net force s c hg hnet hd]; rfl
  | ok body etagHeader =>
    cases hsm : saveMmdb mmdbOk { s with temp := some body } with
    | mk r rest =>
      cases rest with
      | mk s2 evs =>
        cases r with
        | error e =>
          rcases hd : s2.db.isSome with _ | _
          · rw [dl_ok_saveErr_nodb mmdbOk net force s body etagHeader e s2 evs hg
              hnet hsm hd]
            rfl
          · rw [dl_ok_saveErr_db mmdbOk net force s body etagHeader e s2 evs hg
              hnet hsm hd]
            rfl
        | ok u =>
          cases etagHeader with
          | some t =>
            rw [dl_ok_save_etag mmdbOk net force s body t u s2 evs hg hnet hsm]
            rfl
          | none =>
            rw [dl_ok_save_noetag mmdbOk net force s body u s2 evs hg hnet hsm]
            rfl

/-! ### Claims -/

/-- Claim C1 (code bug, utils.rs:97): the claim says extraction of a
bzip2-wrapped payload returns the original payload, but the `// .bz2`
branch of `save_mmdb` compares the sniffed format against
`FileFormat::Gzip` a second time instead of `FileFormat::Bzip2`, so a
bzip2 stream matches no branch of the loop and is returned still
compressed.  Evaluating the model at the failing input: the extraction
loop returns the bzip2-wrapped stream itself, not the payload `[1, 2, 3]`. -/
theorem claim_C1_bzip2_input :
    extract (Blob.bzip2 (Blob.raw [1, 2, 3])) =
      Except.ok (Blob.bzip2 (Blob.raw [1, 2, 3])) := by
  simp [extract, saveLoop, unwrapStep, sniff, Except.map]

/-- Claim C5 counterexample: a forced (`force = true`, as the SIGHUP
handler passes, main.rs:96) refresh with an artifact and a stored etag on
disk still sends the conditional-request header: its one observable event
is the GET carrying `If-None-Match: etag-1`.  The claim says the header is
not sent on a forced fetch. -/
theorem claim_C5_counterexample :
    sighupForce = true
    ∧ (downloadDatabase alwaysOk alwaysDown true sighupForce etagState).events =
        [Ev.request (some "etag-1")] :=
  ⟨rfl, rfl⟩

/-- Claim C5 (amended): the reload signal runs `download_database` with
`force = true`, which bypasses the 24-hour guard, but the validator token
is NOT bypassed: whenever the artifact and the etag sidecar exist, the
request carries the stored entity tag even on a forced fetch
(utils.rs:216-219 does not consult `force`). -/
theorem claim_C5_amended (mmdbOk : Blob → Bool) (net : Option String → NetResult)
    (s : DState) (t : String)
    (hdb : s.db.isSome = true) (he : s.etagFile = some t) :
    sighupForce = true
    ∧ guardFires sighupForce s = false
    ∧ (downloadDatabase mmdbOk net true sighupForce s).events.head? =
        some (Ev.request (some t)) := by
  have hinm : inmOf s = some t := by simp [inmOf, hdb, he]
  refine ⟨rfl, rfl, ?_⟩
  have h := downloadDatabase_first_event mmdbOk net sighupForce s rfl
  rw [hinm] at h
  exact h

/-- Claim C5 witness: the amended statement at a concrete state with an
artifact and stored etag `etag-1`. -/
theorem claim_C5_witness :
    sighupForce = true
    ∧ guardFires sighupForce etagState = false
    ∧ (downloadDatabase alwaysOk (fun _ => NetResult.notModified) true sighupForce
        etagState).events.head? = some (Ev.request (some "etag-1")) :=
  claim_C5_amended alwaysOk (fun _ => NetResult.notModified) etagState "etag-1" rfl rfl

/-- Claim C6 counterexample: the 24-hour timer passes `force = true`
(main.rs:118), and with a stamp written just now (age 0 seconds, younger
than 24 hours) a timer-triggered cycle still contacts the network (its
trace contains the GET request), while the only non-forced call — startup
(main.rs:103) — skips entirely.  The claim says timer cycles are non-forced
and would respect the young-stamp guard. -/
theorem claim_C6_counterexample :
    timerForce = true
    ∧ (downloadDatabase alwaysOk alwaysDown true timerForce freshStampState).events =
        [Ev.request none]
    ∧ (downloadDatabase alwaysOk alwaysDown true startupForce freshStampState).events =
        [] :=
  ⟨rfl, rfl, rfl⟩

/-- Claim C6 (amended): the timer trigger is forced (`force = true`,
bypassing the 24-hour guard), not non-forced as claimed; a non-forced
attempt — in this program only the startup call, `force = false` — whose
last-checked stamp is younger than 24 hours is skipped entirely: it
returns success, touches nothing and produces no event (in particular no
network request). -/
theorem claim_C6_amended (mmdbOk : Blob → Bool) (net : Option String → NetResult)
    (s : DState) (a : Nat)
    (hdb : s.db.isSome = true) (hstamp : s.stampAge = some a) (ha : a < 86400) :
    timerForce = true
    ∧ startupForce = false
    ∧ downloadDatabase mmdbOk net true startupForce s = ⟨DlOutcome.ok, s, []⟩ := by
  have hg : guardFires startupForce s = true := by
    simp [guardFires, startupForce, hdb, hstamp, ha]
  refine ⟨rfl, rfl, ?_⟩
  simp only [downloadDatabase, Bool.not_true, Bool.false_eq_true, if_false, hg, if_true]

/-- Claim C6 witness: the amended statement at a concrete state whose
stamp is 0 seconds old. -/
theorem claim_C6_witness :
    timerForce = true
    ∧ startupForce = false
    ∧ downloadDatabase alwaysOk alwaysDown true startupForce freshStampState =
        ⟨DlOutcome.ok, freshStampState, []⟩ :=
  claim_C6_amended alwaysOk alwaysDown freshStampState 0 rfl rfl (by decide)

/-- Claim C7: when the remote answers 304 Not Modified (and the attempt was
not skipped by the guard), the cycle returns success, leaves
`database.mmdb` and the `etag` sidecar exactly as they were, and refreshes
the `stamp` sidecar; its trace is the request followed by the stamp write
(utils.rs:224-227). -/
theorem claim_C7_not_modified (mmdbOk : Blob → Bool)
    (net : Option String → NetResult) (force : Bool) (s : DState)
    (_hdb : s.db.isSome = true)
    (hg : guardFires force s = false)
    (hnet : net (inmOf s) = NetResult.notModified) :
    downloadDatabase mmdbOk net true force s =
      ⟨DlOutcome.ok, { s with stampAge := some 0 },
        [Ev.request (inmOf s), Ev.writeStamp]⟩
    ∧ ({ s with stampAge := some 0 } : DState).db = s.db
    ∧ ({ s with stampAge := some 0 } : DState).etagFile = s.etagFile := by
  refine ⟨?_, rfl, rfl⟩
  simp only [downloadDatabase, Bool.not_true, Bool.false_eq_true, if_false, hg, hnet]

/-- Claim C7 witness: the 304 path evaluated at a concrete state with an
artifact and stored etag. -/
theorem claim_C7_witness :
    downloadDatabase alwaysOk (fun _ => NetResult.notModified) true false etagState =
      ⟨DlOutcome.ok, { etagState with stampAge := some 0 },
        [Ev.request (inmOf etagState), Ev.writeStamp]⟩
    ∧ ({ etagState with stampAge := some 0 } : DState).db = etagState.db
    ∧ ({ etagState with stampAge := some 0 } : DState).etagFile = etagState.etagFile :=
  claim_C7_not_modified alwaysOk (fun _ => NetResult.notModified) false etagState
    rfl rfl rfl

/-- Claim C9: with no `MAXMIND_DB_URL` configured (utils.rs:176-187), any
call — forced or not — returns success immediately when `database.mmdb`
exists, with no state change and no observable event (no network contact,
no filesystem write); when the file does not exist, the call runs
`process::exit(1)` inside `download_database` itself, so the process
terminates with a non-zero status regardless of which trigger made the
call. -/
theorem claim_C9_no_url (mmdbOk : Blob → Bool) (net : Option String → NetResult)
    (force : Bool) (s : DState) :
    (s.db.isSome = true →
      downloadDatabase mmdbOk net false force s = ⟨DlOutcome.ok, s, []⟩)
    ∧ (s.db = none →
      downloadDatabase mmdbOk net false force s =
        ⟨DlOutcome.exited, s, [Ev.exit 1]⟩) := by
  constructor
  · intro hdb
    simp only [downloadDatabase, Bool.not_false, if_true, hdb]
  · intro hdb
    simp only [downloadDatabase, Bool.not_false, if_true, hdb, Option.isSome_none,
      Bool.false_eq_true, if_false]

/-- Claim C9 witness: both branches at concrete states, with
`force = sighupForce` standing in for a reload-signal-triggered call. -/
theorem claim_C9_witness :
    downloadDatabase alwaysOk alwaysDown false sighupForce dbOnlyState =
      ⟨DlOutcome.ok, dbOnlyState, []⟩
    ∧ downloadDatabase alwaysOk alwaysDown false sighupForce emptyState =
      ⟨DlOutcome.exited, emptyState, [Ev.exit 1]⟩ :=
  ⟨(claim_C9_no_url alwaysOk alwaysDown sighupForce dbOnlyState).1 rfl,
    (claim_C9_no_url alwaysOk alwaysDown sighupForce emptyState).2 rfl⟩

/-- Claim C2 counterexample: an artifact is on disk, yet a network-level
send error (DNS/TLS/timeout) makes the startup attempt fatal:
`request.send().await?` at utils.rs:221 propagates the error regardless of
the artifact, and main.rs:103-106 exits on any `Err`.  The claim says that
whenever an artifact exists the attempt degrades to a successful no-change
result. -/
theorem claim_C2_counterexample :
    dbOnlyState.db.isSome = true
    ∧ (downloadDatabase alwaysOk alwaysDown true startupForce dbOnlyState).outcome =
        DlOutcome.err "network error"
    ∧ startupFatal (downloadDatabase alwaysOk alwaysDown true startupForce dbOnlyState) =
        true :=
  ⟨rfl, rfl, rfl⟩

/-- Claim C2 (amended): a non-200/non-304 HTTP status degrades to a
successful no-change result exactly when an artifact exists — the attempt
returns success with the data directory byte-for-byte untouched and no
observable event beyond the request itself — and is a failure when none
exists (fatal at the startup call site); a network-level send error
always fails the attempt, even with an artifact on disk, and any failed
attempt is fatal at the startup call site.  Attempts triggered by the
reload signal or the timer never terminate the process however they end. -/
theorem claim_C2_amended (mmdbOk : Blob → Bool) (net : Option String → NetResult)
    (force : Bool) (s : DState)
    (hg : guardFires force s = false) :
    (net (inmOf s) = NetResult.netError →
      downloadDatabase mmdbOk net true force s =
        ⟨DlOutcome.err "network error", s, [Ev.request (inmOf s)]⟩
      ∧ startupFatal (downloadDatabase mmdbOk net true force s) = true)
    ∧ (∀ c, net (inmOf s) = NetResult.other c →
      (s.db.isSome = true →
        downloadDatabase mmdbOk net true force s =
          ⟨DlOutcome.ok, s, [Ev.request (inmOf s)]⟩)
      ∧ (s.db.isSome = false →
        downloadDatabase mmdbOk net true force s =
          ⟨DlOutcome.err "unexpected response code", s, [Ev.request (inmOf s)]⟩
        ∧ startupFatal (downloadDatabase mmdbOk net true force s) = true)
      ∧ ((downloadDatabase mmdbOk net true force s).outcome = DlOutcome.ok ↔
          s.db.isSome = true))
    ∧ backgroundFatal (downloadDatabase mmdbOk net true force s) = false := by
  refine ⟨?_, ?_, downloadDatabase_no_exit mmdbOk net force s⟩
  · intro hnet
    have h := dl_netError mmdbOk net force s hg hnet
    exact ⟨h, by rw [h]; rfl⟩
  · intro c hnet
    refine ⟨?_, ?_, ?_⟩
    · intro hd
      exact dl_other_db mmdbOk net force s c hg hnet hd
    · intro hd
      have h := dl_other_nodb mmdbOk net force s c hg hnet hd
      exact ⟨h, by rw [h]; rfl⟩
    · rcases hd : s.db.isSome with _ | _
      · rw [dl_other_nodb mmdbOk net force s c hg hnet hd]
        simp
      · rw [dl_other_db mmdbOk net force s c hg hnet hd]
        simp

/-- Claim C2 witness: the amended statement applied with an artifact on
disk and a remote that answers status 500: the attempt degrades to a
successful no-change result — state untouched, the request its only
event. -/
theorem claim_C2_witness :
    downloadDatabase alwaysOk (fun _ => NetResult.other 500) true startupForce
        dbOnlyState =
      ⟨DlOutcome.ok, dbOnlyState, [Ev.request (inmOf dbOnlyState)]⟩ :=
  ((claim_C2_amended alwaysOk (fun _ => NetResult.other 500) startupForce dbOnlyState
    rfl).2.1 500 rfl).1 rfl

/-- Claim C3: when the extracted candidate fails open-validation
(utils.rs:144-152), `save_mmdb` returns the rejection, `database.mmdb`,
the `etag` sidecar and the `stamp` sidecar are exactly as before the call,
the scratch file holding the candidate is deleted (both scratch files are
gone whenever at least one layer was peeled; with zero layers peeled
`database.mmdb.temp2` was never written), and no observable event is
produced. -/
theorem claim_C3_reject (mmdbOk : Blob → Bool) (s : DState) (body final : Blob)
    (rt2 : Bool) (s1 : DState)
    (hE : saveLoop body true { s with temp := some body } =
      (Except.ok (final, rt2), s1))
    (hBad : mmdbOk final = false) :
    saveMmdb mmdbOk { s with temp := some body } =
      (Except.error "Error opening newly downloaded database",
        setSlot s1 rt2 none, [])
    ∧ (setSlot s1 rt2 none).db = s.db
    ∧ (setSlot s1 rt2 none).etagFile = s.etagFile
    ∧ (setSlot s1 rt2 none).stampAge = s.stampAge
    ∧ (setSlot s1 rt2 none).temp = none
    ∧ ((setSlot s1 rt2 none).temp2 = none ∨ (setSlot s1 rt2 none).temp2 = s.temp2) := by
  have hdbEq : s1.db = s.db := by
    have h := saveLoop_db body true { s with temp := some body }
    rw [hE] at h
    simpa using h
  have hetEq : s1.etagFile = s.etagFile := by
    have h := saveLoop_etagFile body true { s with temp := some body }
    rw [hE] at h
    simpa using h
  have hstEq : s1.stampAge = s.stampAge := by
    have h := saveLoop_stampAge body true { s with temp := some body }
    rw [hE] at h
    simpa using h
  have heq : saveMmdb mmdbOk { s with temp := some body } =
      (Except.error "Error opening newly downloaded database",
        setSlot s1 rt2 none, []) := by
    simp only [saveMmdb, hE, hBad, Bool.false_eq_true, if_false]
  have hslots := saveLoop_ok_slots body true { s with temp := some body }
    final rt2 s1 hE
  refine ⟨heq, by simp [hdbEq], by simp [hetEq], by simp [hstEq], ?_, ?_⟩
  · rcases hslots with ⟨rfl, rfl, rfl⟩ | ⟨hA, hB⟩
    · rfl
    · cases rt2
      · have : s1.temp = none := by simpa [getSlot] using hB
        simpa [setSlot] using this
      · simp [setSlot]
  · rcases hslots with ⟨rfl, rfl, rfl⟩ | ⟨hA, hB⟩
    · exact Or.inr rfl
    · cases rt2
      · exact Or.inl (by simp [setSlot])
      · have : s1.temp2 = none := by simpa [getSlot] using hB
        exact Or.inl (by simpa [setSlot] using this)

/-- Claim C3 witness: a raw candidate rejected by the opaque library at a
concrete state, leaving artifact, sidecars and scratch slots as stated. -/
theorem claim_C3_witness :
    saveMmdb alwaysBad { etagState with temp := some (Blob.raw [5]) } =
      (Except.error "Error opening newly downloaded database",
        setSlot { etagState with temp := some (Blob.raw [5]) } true none, [])
    ∧ (setSlot { etagState with temp := some (Blob.raw [5]) } true none).db =
        etagState.db
    ∧ (setSlot { etagState with temp := some (Blob.raw [5]) } true none).etagFile =
        etagState.etagFile
    ∧ (setSlot { etagState with temp := some (Blob.raw [5]) } true none).stampAge =
        etagState.stampAge
    ∧ (setSlot { etagState with temp := some (Blob.raw [5]) } true none).temp = none
    ∧ ((setSlot { etagState with temp := some (Blob.raw [5]) } true none).temp2 = none
        ∨ (setSlot { etagState with temp := some (Blob.raw [5]) } true none).temp2 =
            etagState.temp2) :=
  claim_C3_reject alwaysBad etagState (Blob.raw [5]) (Blob.raw [5]) true
    { etagState with temp := some (Blob.raw [5]) }
    (by rw [saveLoop]; rfl) rfl

/-- Claim C4: in every refresh attempt, the validator-token sidecar write
happens only after the atomic rename installing the artifact: scanning any
attempt's trace in order, no `writeEtag` event is ever encountered before
a `renameToDb` event (utils.rs:154 runs before utils.rs:275-280, and the
etag write is skipped entirely when the install failed, utils.rs:266-273). -/
theorem claim_C4_etag_after_install (mmdbOk : Blob → Bool)
    (net : Option String → NetResult) (urlConfigured force : Bool) (s : DState) :
    etagWriteWithoutInstall
      (downloadDatabase mmdbOk net urlConfigured force s).events = false := by
  cases urlConfigured with
  | false =>
    simp only [downloadDatabase, Bool.not_false, if_true]
    rcases s.db.isSome with _ | _ <;> rfl
  | true =>
    rcases hg : guardFires force s with _ | _
    case true =>
      simp only [downloadDatabase, Bool.not_true, Bool.false_eq_true, if_false, hg,
        if_true]
      rfl
    case false =>
    cases hnet : net (inmOf s) with
    | netError => rw [dl_netError mmdbOk net force s hg hnet]; rfl
    | notModified => rw [dl_notModified mmdbOk net force s hg hnet]; rfl
    | other c =>
      rcases hd : s.db.isSome with _ | _
      · rw [dl_other_nodb mmdbOk net force s c hg hnet hd]; rfl
      · rw [dl_other_db mmdbOk net force s c hg hnet hd]; rfl
    | ok body etagHeader =>
      cases hsm : saveMmdb mmdbOk { s with temp := some body } with
      | mk r rest =>
        cases rest with
        | mk s2 evs =>
          cases r with
          | error e =>
            have hevs := saveMmdb_error_events mmdbOk
              { s with temp := some body } e s2 evs hsm
            subst hevs
            rcases hd : s2.db.isSome with _ | _
            · rw [dl_ok_saveErr_nodb mmdbOk net force s body etagHeader e s2 [] hg
                hnet hsm hd]
              rfl
            · rw [dl_ok_saveErr_db mmdbOk net force s body etagHeader e s2 [] hg
                hnet hsm hd]
              rfl
          | ok u =>
            have hevs := saveMmdb_ok_events mmdbOk
              { s with temp := some body } u s2 evs hsm
            subst hevs
            cases etagHeader with
            | some t =>
              rw [dl_ok_save_etag mmdbOk net force s body t u s2 [Ev.renameToDb] hg
                hnet hsm]
              rfl
            | none =>
              rw [dl_ok_save_noetag mmdbOk net force s body u s2 [Ev.renameToDb] hg
                hnet hsm]
              rfl

/-- Claim C10: a 200 response with no `ETag` header still validates and
installs the new artifact, and the previously stored `etag` sidecar is
left in place unchanged — utils.rs:275 writes the sidecar only under
`if let Some(etag)`, and never clears it. -/
theorem claim_C10_no_etag_header (mmdbOk : Blob → Bool)
    (net : Option String → NetResult) (force : Bool) (s : DState)
    (body final : Blob) (rt2 : Bool) (s1 : DState)
    (hg : guardFires force s = false)
    (hnet : net (inmOf s) = NetResult.ok body none)
    (hE : saveLoop body true { s with temp := some body } =
      (Except.ok (final, rt2), s1))
    (hOk : mmdbOk final = true) :
    (downloadDatabase mmdbOk net true force s).outcome = DlOutcome.ok
    ∧ (downloadDatabase mmdbOk net true force s).state.db = some final
    ∧ (downloadDatabase mmdbOk net true force s).state.etagFile = s.etagFile
    ∧ (downloadDatabase mmdbOk net true force s).state.stampAge = some 0
    ∧ Ev.renameToDb ∈ (downloadDatabase mmdbOk net true force s).events := by
  have hetEq : s1.etagFile = s.etagFile := by
    have h := saveLoop_etagFile body true { s with temp := some body }
    rw [hE] at h
    simpa using h
  have hsm : saveMmdb mmdbOk { s with temp := some body } =
      (Except.ok (), setSlot { s1 with db := some final } rt2 none,
        [Ev.renameToDb]) := by
    simp only [saveMmdb, hE, hOk, if_true]
  have hdl := dl_ok_save_noetag mmdbOk net force s body ()
    (setSlot { s1 with db := some final } rt2 none) [Ev.renameToDb] hg hnet hsm
  rw [hdl]
  refine ⟨rfl, ?_, ?_, rfl, ?_⟩
  · simp
  · simp [hetEq]
  · simp

/-- Claim C10 witness: a 200 response without `ETag` at a state holding a
stored etag `etag-1`: the new artifact is installed and the sidecar still
reads `etag-1`. -/
theorem claim_C10_witness :
    (downloadDatabase alwaysOk (fun _ => NetResult.ok (Blob.raw [7]) none) true
        false etagState).outcome = DlOutcome.ok
    ∧ (downloadDatabase alwaysOk (fun _ => NetResult.ok (Blob.raw [7]) none) true
        false etagState).state.db = some (Blob.raw [7])
    ∧ (downloadDatabase alwaysOk (fun _ => NetResult.ok (Blob.raw [7]) none) true
        false etagState).state.etagFile = etagState.etagFile
    ∧ (downloadDatabase alwaysOk (fun _ => NetResult.ok (Blob.raw [7]) none) true
        false etagState).state.stampAge = some 0
    ∧ Ev.renameToDb ∈ (downloadDatabase alwaysOk
        (fun _ => NetResult.ok (Blob.raw [7]) none) true false etagState).events :=
  claim_C10_no_etag_header alwaysOk (fun _ => NetResult.ok (Blob.raw [7]) none)
    false etagState (Blob.raw [7]) (Blob.raw [7]) true
    { etagState with temp := some (Blob.raw [7]) }
    rfl rfl (by rw [saveLoop]; rfl) rfl

/-- Claim C8 counterexample: the state with one SIGHUP-task cycle and one
timer-task cycle simultaneously in flight is reachable (timer tick starts
a cycle, then a reload signal starts another while the first still runs),
so more than one refresh cycle can execute at a time: main.rs has no lock,
flag or queue connecting the two spawned tasks. -/
theorem claim_C8_counterexample :
    SchedReach (Sched.mk 1 1) ∧ 1 < inFlight (Sched.mk 1 1) :=
  ⟨SchedReach.step (SchedReach.step SchedReach.start (SchedStep.timerStart 0))
    (SchedStep.sighupStart 1), by decide⟩

/-- Claim C8 (amended): there is no system-wide mutual exclusion between
refresh cycles — a state with both a SIGHUP-triggered and a
timer-triggered cycle in flight is reachable, and a trigger firing during
the other task's cycle is neither dropped nor queued, it simply runs
concurrently.  What does hold is per-task serialization: each trigger
source runs its own cycles one at a time, so every reachable state has at
most one cycle per task in flight. -/
theorem claim_C8_amended :
    SchedReach (Sched.mk 1 1)
    ∧ (∀ st, SchedReach st → st.sighupCycles ≤ 1 ∧ st.timerCycles ≤ 1) := by
  constructor
  · exact SchedReach.step (SchedReach.step SchedReach.start (SchedStep.timerStart 0))
      (SchedStep.sighupStart 1)
  · intro st h
    induction h with
    | start => exact ⟨Nat.zero_le 1, Nat.zero_le 1⟩
    | step hr hs ih =>
      cases hs with
      | sighupStart t => exact ⟨Nat.le_refl 1, ih.2⟩
      | sighupEnd t => exact ⟨Nat.zero_le 1, ih.2⟩
      | timerStart n => exact ⟨ih.1, Nat.le_refl 1⟩
      | timerEnd n => exact ⟨ih.1, Nat.zero_le 1⟩

/-- Claim C8 witness: the per-task bound of the amended statement applied
at the concrete reachable two-cycles state. -/
theorem claim_C8_witness :
    (Sched.mk 1 1).sighupCycles ≤ 1 ∧ (Sched.mk 1 1).timerCycles ≤ 1 :=
  claim_C8_amended.2 (Sched.mk 1 1) claim_C8_amended.1

end MaxmindGeoipApi
